import Mathlib

/-!
Shallow embedding of the LiveKit client bridge
(crates/live_kit_client/src/live_kit_client.rs): native handle wrappers with
retain/release discipline, the one-shot completion bridge, the event fan-out
registry, the delegate weak back-reference protocol, and display enumeration.
Opaque native handles are modelled as natural numbers; CFString values as
Lean strings; nullable native pointers and arrays as Option.
-/

namespace LiveKitClient

/-! ## Reference-count events

Retain and release calls as observed by a reference-count-counting native
layer, on an opaque handle modelled as a natural number. -/

inductive RcEvent
  | retain (handle : Nat)
  | release (handle : Nat)
deriving DecidableEq, Repr

/-- Signed reference-count contribution of one event to handle `h`. -/
def rcStep (h : Nat) : RcEvent → Int
  | .retain h2 => if h2 = h then 1 else 0
  | .release h2 => if h2 = h then -1 else 0

/-- Net reference-count change that a list of events applies to handle `h`. -/
def rcDelta (events : List RcEvent) (h : Nat) : Int :=
  (events.map (rcStep h)).sum

/-- Number of retains of handle `h` in an event list. -/
def countRetains (events : List RcEvent) (h : Nat) : Nat :=
  (events.map (fun e => match e with
    | RcEvent.retain h2 => if h2 = h then 1 else 0
    | RcEvent.release _ => 0)).sum

/-- Number of releases of handle `h` in an event list. -/
def countReleases (events : List RcEvent) (h : Nat) : Nat :=
  (events.map (fun e => match e with
    | RcEvent.retain _ => 0
    | RcEvent.release h2 => if h2 = h then 1 else 0)).sum

/-- Whether an event is a release of any handle. -/
def isRelease : RcEvent → Bool
  | .release _ => true
  | .retain _ => false

/-- Total number of release events, whatever the handle. -/
def totalReleases (events : List RcEvent) : Nat :=
  (events.filter isRelease).length

/-! ## Wrapper kinds and their retain/release traces (claim C5)

Read off the source: RemoteVideoTrack::new and MacOSDisplay::new call CFRetain
once (borrow rule, promotion to owned); Room::new, RoomDelegate::new and
LocalVideoTrack::screen_share_for_display take ownership of an already-owned
handle (create rule) and issue no retain. Every Drop impl calls CFRelease
exactly once on the wrapped handle. -/

inductive WrapperKind
  | room
  | roomDelegate
  | localVideoTrack
  | remoteVideoTrack
  | macOSDisplay
deriving DecidableEq, Repr

/-- Retain events issued while constructing a wrapper around handle `h`. -/
def construction_rc : WrapperKind → Nat → List RcEvent
  | .remoteVideoTrack, h => [.retain h]
  | .macOSDisplay, h => [.retain h]
  | .room, _ => []
  | .roomDelegate, _ => []
  | .localVideoTrack, _ => []

/-- Release events issued when a wrapper around handle `h` is dropped. -/
def drop_rc : WrapperKind → Nat → List RcEvent
  | _, h => [.release h]

/-- Full lifetime trace of one wrapper: construction followed by drop. -/
def lifetime_rc (k : WrapperKind) (h : Nat) : List RcEvent :=
  construction_rc k h ++ drop_rc k h

inductive OwnershipRule
  | create
  | borrow
deriving DecidableEq, Repr

/-- Which ownership rule each wrapper follows per the data model. -/
def rule_of : WrapperKind → OwnershipRule
  | .remoteVideoTrack => .borrow
  | .macOSDisplay => .borrow
  | .room => .create
  | .roomDelegate => .create
  | .localVideoTrack => .create

/-- Retains a construction must issue under each rule. -/
def expected_retains : OwnershipRule → Nat
  | .create => 0
  | .borrow => 1

/-- Concatenated lifetime traces of a batch of wrapper lifecycles. -/
def lifecycles_rc (ls : List (WrapperKind × Nat)) : List RcEvent :=
  ls.foldr (fun p acc => lifetime_rc p.1 p.2 ++ acc) []

/-! ## Data model of tracks and lifecycle events -/

/-- RemoteVideoTrack: borrowed native handle promoted to owned, with the sid
and publisher id fixed at construction. -/
structure RemoteVideoTrack where
  native_track : Nat
  sid : String
  publisher_id : String
deriving DecidableEq, Repr

inductive RemoteVideoTrackUpdate
  | Subscribed (track : RemoteVideoTrack)
  | Unsubscribed (publisher_id : String) (track_id : String)
deriving DecidableEq, Repr

/-! ## Event fan-out registry (claims C2, C7)

The subscriber collection `remote_video_track_subscribers` is a vector of
unbounded senders.  A subscriber is modelled by the identity of its sender and
the list of events its receiver has been delivered so far, in delivery order.
Whether a given receiver has been dropped at a given publish is supplied
externally as a predicate on sender identities: `unbounded_send` succeeds
exactly when the receiver is still open. -/

structure Subscriber where
  id : Nat
  received : List RemoteVideoTrackUpdate
deriving DecidableEq, Repr

structure RoomSubscribers where
  subscribers : List Subscriber
deriving DecidableEq, Repr

/-- Model of Room::remote_video_track_updates: create a fresh channel and push
its sender onto the subscriber vector; the new receiver starts empty. -/
def remote_video_track_updates (newId : Nat) (s : RoomSubscribers) : RoomSubscribers :=
  { subscribers := s.subscribers ++ [⟨newId, []⟩] }

/-- One retain-with-unbounded_send pass over the subscriber vector: a sender
whose receiver is open (`alive`) receives the event and is kept; a sender whose
receiver was dropped fails to send and is removed, with the failure ignored. -/
def publish (alive : Nat → Bool) (ev : RemoteVideoTrackUpdate) (s : RoomSubscribers) :
    RoomSubscribers :=
  { subscribers := s.subscribers.filterMap
      (fun sub => if alive sub.id then some ⟨sub.id, sub.received ++ [ev]⟩ else none) }

/-- Model of Room::did_subscribe_to_remote_video_track: wrap the track in a
shared pointer and publish a Subscribed event to every live subscriber. -/
def did_subscribe_to_remote_video_track (alive : Nat → Bool) (track : RemoteVideoTrack)
    (s : RoomSubscribers) : RoomSubscribers :=
  publish alive (.Subscribed track) s

/-- Model of Room::did_unsubscribe_from_remote_video_track. -/
def did_unsubscribe_from_remote_video_track (alive : Nat → Bool)
    (publisher_id track_id : String) (s : RoomSubscribers) : RoomSubscribers :=
  publish alive (.Unsubscribed publisher_id track_id) s

/-- A sequence of publish calls, each with its own receiver-liveness snapshot. -/
def publishSeq (pubs : List ((Nat → Bool) × RemoteVideoTrackUpdate))
    (s : RoomSubscribers) : RoomSubscribers :=
  pubs.foldl (fun st p => publish p.1 p.2 st) s

/-! ## Completion bridge (claims C3, C6)

Room::build_done_callback pairs a oneshot channel with the trampoline
done_callback.  The trampoline reclaims the boxed sender with Box::from_raw
(so one invocation publishes exactly one result and frees the box once),
tests the error CFStringRef for null, and sends Ok on null or Err with the
exact error text otherwise.  The issuing task awaits the receiver, unwraps
(a broken channel panics: the bridge-contract violation of claim C6), and
annotates a delivered error with operation context text. -/

/-- An operation error annotated with operation-specific context text, as
produced by anyhow context on a delivered error string. -/
structure AnnotatedError where
  context : String
  source : String
deriving DecidableEq, Repr

/-- Model of the done_callback trampoline body: the nullable error CFStringRef
is an Option String; null means success, non-null carries the failure text. -/
def done_callback (error : Option String) : Except String Unit :=
  match error with
  | none => .ok ()
  | some e => .error e

/-- Results published into the oneshot channel by one trampoline invocation:
Box::from_raw consumes the boxed sender, and exactly one send occurs. -/
def done_callback_sends (error : Option String) : List (Except String Unit) :=
  [done_callback error]

/-- Outcome of awaiting and unwrapping a oneshot receiver: `panicked` models
the unwrap panic on a broken channel (sender dropped without sending). -/
inductive AwaitOutcome (α : Type)
  | panicked
  | resolved (value : α)
deriving DecidableEq, Repr

/-- Model of rx.await.unwrap(): the received value is absent when the sender
was dropped without ever publishing. -/
def rx_await_unwrap {α : Type} (received : Option α) : AwaitOutcome α :=
  match received with
  | none => .panicked
  | some v => .resolved v

/-- Model of Result::context: wrap a delivered error string with context text. -/
def with_context (ctx : String) (r : Except String Unit) : Except AnnotatedError Unit :=
  match r with
  | .ok _ => .ok ()
  | .error e => .error ⟨ctx, e⟩

/-- Model of the tail of Room::connect: await the oneshot receiver, unwrap,
and annotate any error with the connect context text. -/
def connect_await (received : Option (Except String Unit)) :
    AwaitOutcome (Except AnnotatedError Unit) :=
  match rx_await_unwrap received with
  | .panicked => .panicked
  | .resolved r => .resolved (with_context "error connecting to room" r)

/-- Model of the tail of Room::publish_video_track. -/
def publish_video_track_await (received : Option (Except String Unit)) :
    AwaitOutcome (Except AnnotatedError Unit) :=
  match rx_await_unwrap received with
  | .panicked => .panicked
  | .resolved r => .resolved (with_context "error publishing video track" r)

/-- True when the outcome is an ordinary typed operation failure (a resolved
Err), as opposed to a panic or a success. -/
def is_ordinary_failure {α β : Type} : AwaitOutcome (Except α β) → Bool
  | .resolved (.error _) => true
  | .resolved (.ok _) => false
  | .panicked => false

/-! ## Display enumeration bridge (claim C4) -/

/-- MacOSDisplay: borrowed native display handle promoted to owned. -/
structure MacOSDisplay where
  handle : Nat
deriving DecidableEq, Repr

/-- Model of the display_sources trampoline body.  The code branches on the
sources CFArrayRef being null: null sources wraps the error string into a
failure (a null error CFStringRef there would be undefined behaviour, modelled
as the absent result); non-null sources wraps every handle via
MacOSDisplay::new into the success payload. -/
def display_sources_callback (sources : Option (List Nat)) (error : Option String) :
    Option (Except String (List MacOSDisplay)) :=
  match sources with
  | none => error.map Except.error
  | some hs => some (.ok (hs.map MacOSDisplay.mk))

/-- Retain events issued by one display_sources trampoline invocation:
MacOSDisplay::new calls CFRetain once per handle in the sources array. -/
def display_sources_rc (sources : Option (List Nat)) : List RcEvent :=
  match sources with
  | none => []
  | some hs => hs.map RcEvent.retain

/-- Release events issued when one MacOSDisplay wrapper is dropped. -/
def macOSDisplay_drop_rc (d : MacOSDisplay) : List RcEvent :=
  [.release d.handle]

/-- Model of the tail of display_sources: await the oneshot receiver and
unwrap; no extra context is added on this path. -/
def display_sources_await (received : Option (Except String (List MacOSDisplay))) :
    AwaitOutcome (Except String (List MacOSDisplay)) :=
  rx_await_unwrap received

/-! ## Delegate weak back-reference protocol (claims C1, C8, C10)

RoomDelegate::new leaks one raw weak reference to the Room into the native
callback context via Weak::into_raw.  A trampoline reconstructs it with
Weak::from_raw; Weak::from_raw takes back ownership of that raw reference, so
the trampoline must give it up again with Weak::into_raw before returning for
the context pointer to stay valid.  The state below counts the raw weak
references currently held by the native context, and records an invalid
transition when Weak::from_raw runs without an outstanding raw reference
(undefined behaviour: a second weak-count decrement for one reference). -/

structure DelegateWeakState where
  raw_weak_refs : Nat
  invalid : Bool
deriving DecidableEq, Repr

/-- Model of Weak::from_raw on the delegate context pointer: consume one raw
weak reference; with none outstanding the reclamation is undefined behaviour. -/
def weak_from_raw (s : DelegateWeakState) : DelegateWeakState :=
  if s.raw_weak_refs = 0 then { s with invalid := true }
  else { s with raw_weak_refs := s.raw_weak_refs - 1 }

/-- Model of Weak::into_raw: leak one reconstructed weak back into the raw
context pointer. -/
def weak_into_raw (s : DelegateWeakState) : DelegateWeakState :=
  { s with raw_weak_refs := s.raw_weak_refs + 1 }

/-- Model of RoomDelegate::new: Weak::into_raw(weak_room) hands exactly one
raw weak reference to the native callback context. -/
def roomDelegate_new_weak : DelegateWeakState :=
  ⟨1, false⟩

/-- Effect of one on_did_subscribe_to_remote_video_track invocation on the
delegate weak state: the trampoline runs Weak::from_raw, upgrades, and
returns without calling Weak::into_raw, so the reconstructed Weak is dropped
at the end of the function body. -/
def on_did_subscribe_weak (s : DelegateWeakState) : DelegateWeakState :=
  weak_from_raw s

/-- Effect of one on_did_unsubscribe_from_remote_video_track invocation: the
trampoline runs Weak::from_raw and restores the reference with
Weak::into_raw before returning. -/
def on_did_unsubscribe_weak (s : DelegateWeakState) : DelegateWeakState :=
  weak_into_raw (weak_from_raw s)

/-- Effect of the RoomDelegate Drop impl: reclaim and drop the raw weak
reference exactly once via Weak::from_raw. -/
def roomDelegate_drop_weak (s : DelegateWeakState) : DelegateWeakState :=
  weak_from_raw s

/-! ## Trampoline dispatch (claims C8, C10) -/

/-- What a delegate trampoline invocation does after reconstructing the weak
Room: dispatch into the fan-out registry, or silently discard the event. -/
inductive SubscribeDispatch
  | dispatched (next : RoomSubscribers)
  | discarded
deriving DecidableEq, Repr

/-- True when the invocation dispatched into the fan-out registry. -/
def did_dispatch : SubscribeDispatch → Bool
  | .dispatched _ => true
  | .discarded => false

/-- Model of on_did_subscribe_to_remote_video_track after string conversion:
`upgraded` is the result of room.upgrade(), carrying the subscriber state of
the Room when it is still alive.  The RemoteVideoTrack wrapper is built
unconditionally; on a successful upgrade the Subscribed event is published,
otherwise the event is dropped without error. -/
def on_did_subscribe_dispatch (upgraded : Option RoomSubscribers) (alive : Nat → Bool)
    (publisher_id track_id : String) (native_track : Nat) : SubscribeDispatch :=
  let track : RemoteVideoTrack := ⟨native_track, track_id, publisher_id⟩
  match upgraded with
  | none => .discarded
  | some room => .dispatched (did_subscribe_to_remote_video_track alive track room)

/-- Model of on_did_unsubscribe_from_remote_video_track after string
conversion. -/
def on_did_unsubscribe_dispatch (upgraded : Option RoomSubscribers) (alive : Nat → Bool)
    (publisher_id track_id : String) : SubscribeDispatch :=
  match upgraded with
  | none => .discarded
  | some room => .dispatched (did_unsubscribe_from_remote_video_track alive publisher_id track_id room)

/-- Retain/release events on the native track handle during one
on_did_subscribe_to_remote_video_track invocation: RemoteVideoTrack::new
(CFRetain) runs before room.upgrade() is consulted; when the upgrade fails the
wrapper is dropped at the end of the trampoline (CFRelease), and when it
succeeds the wrapper moves into the shared pointer handed to subscribers, so
its release happens later, outside this invocation. -/
def on_did_subscribe_rc (upgrade_succeeded : Bool) (native_track : Nat) : List RcEvent :=
  [RcEvent.retain native_track] ++
    (if upgrade_succeeded then [] else [RcEvent.release native_track])

/-! ## Direct track query (claim C9) -/

/-- Model of Room::remote_video_tracks: the native query returns a nullable
CFArray of track handles (`native_tracks`); `sid_of` models
LKRemoteVideoTrackGetSid.  A null array yields the empty vector; otherwise
each handle is wrapped with its sid and the participant id. -/
def remote_video_tracks (participant_id : String) (sid_of : Nat → String)
    (native_tracks : Option (List Nat)) : List RemoteVideoTrack :=
  match native_tracks with
  | none => []
  | some hs => hs.map (fun h => ⟨h, sid_of h, participant_id⟩)

/-! ## Helper lemmas -/

theorem totalReleases_append (a b : List RcEvent) :
    totalReleases (a ++ b) = totalReleases a + totalReleases b := by
  simp [totalReleases, List.filter_append]

theorem totalReleases_lifetime (k : WrapperKind) (h : Nat) :
    totalReleases (lifetime_rc k h) = 1 := by
  cases k <;> simp [totalReleases, lifetime_rc, construction_rc, drop_rc, isRelease]

theorem rcDelta_append (a b : List RcEvent) (h : Nat) :
    rcDelta (a ++ b) h = rcDelta a h + rcDelta b h := by
  simp [rcDelta]

theorem rcDelta_retains (hs : List Nat) (h : Nat) :
    rcDelta (hs.map RcEvent.retain) h = (hs.count h : Int) := by
  induction hs with
  | nil => rfl
  | cons x xs ih =>
      by_cases hx : x = h <;>
        simp [rcDelta, rcStep, List.count_cons, hx] at ih ⊢ <;> omega

theorem countRetains_map_retain (hs : List Nat) (h : Nat) :
    countRetains (hs.map RcEvent.retain) h = hs.count h := by
  induction hs with
  | nil => rfl
  | cons x xs ih =>
      by_cases hx : x = h <;>
        simp [countRetains, List.count_cons, hx] at ih ⊢ <;> omega

theorem two_le_count_of_get_eq :
    ∀ (hs : List Nat) (j k : Nat) (hj : j < hs.length) (hk : k < hs.length),
      j ≠ k → hs.get ⟨j, hj⟩ = hs.get ⟨k, hk⟩ → 2 ≤ hs.count (hs.get ⟨k, hk⟩)
  | [], _, _, hj, _, _, _ => absurd hj (by simp)
  | x :: _, 0, 0, _, _, hjk, _ => absurd rfl hjk
  | x :: xs, 0, k + 1, _, hk, _, heq => by
      have hmem : (x :: xs).get ⟨k + 1, hk⟩ ∈ xs := by
        exact List.get_mem xs k (Nat.lt_of_succ_lt_succ hk)
      have hcnt : 1 ≤ xs.count ((x :: xs).get ⟨k + 1, hk⟩) :=
        List.one_le_count_iff.mpr hmem
      have hx : x = (x :: xs).get ⟨k + 1, hk⟩ := heq
      calc 2 ≤ xs.count ((x :: xs).get ⟨k + 1, hk⟩) + 1 := by omega
        _ = (x :: xs).count ((x :: xs).get ⟨k + 1, hk⟩) := by
              rw [show (x :: xs).count ((x :: xs).get ⟨k + 1, hk⟩)
                    = ((x :: xs).get ⟨k + 1, hk⟩ :: xs).count ((x :: xs).get ⟨k + 1, hk⟩)
                  from by rw [← hx]]
              rw [List.count_cons_self]
  | x :: xs, j + 1, 0, hj, _, _, heq => by
      have hmem : xs.get ⟨j, Nat.lt_of_succ_lt_succ hj⟩ ∈ xs :=
        List.get_mem xs j (Nat.lt_of_succ_lt_succ hj)
      have hx : xs.get ⟨j, Nat.lt_of_succ_lt_succ hj⟩ = x := heq
      have hcnt : 1 ≤ xs.count x := List.one_le_count_iff.mpr (hx ▸ hmem)
      show 2 ≤ (x :: xs).count x
      rw [List.count_cons_self]
      omega
  | x :: xs, j + 1, k + 1, hj, hk, hjk, heq => by
      have ih := two_le_count_of_get_eq xs j k (Nat.lt_of_succ_lt_succ hj)
        (Nat.lt_of_succ_lt_succ hk) (fun h => hjk (by omega)) heq
      have hle := List.count_le_count_cons
        (xs.get ⟨k, Nat.lt_of_succ_lt_succ hk⟩) x xs
      show 2 ≤ (x :: xs).count (xs.get ⟨k, Nat.lt_of_succ_lt_succ hk⟩)
      omega

theorem publish_state_append (alive : Nat → Bool) (ev : RemoteVideoTrackUpdate)
    (l1 l2 : List Subscriber) :
    publish alive ev ⟨l1 ++ l2⟩ =
      ⟨(publish alive ev ⟨l1⟩).subscribers ++ (publish alive ev ⟨l2⟩).subscribers⟩ := by
  simp [publish, List.filterMap_append]

theorem publishSeq_state_append (pubs : List ((Nat → Bool) × RemoteVideoTrackUpdate)) :
    ∀ l1 l2 : List Subscriber,
      publishSeq pubs ⟨l1 ++ l2⟩ =
        ⟨(publishSeq pubs ⟨l1⟩).subscribers ++ (publishSeq pubs ⟨l2⟩).subscribers⟩ := by
  induction pubs with
  | nil => intro l1 l2; rfl
  | cons p ps ih =>
      intro l1 l2
      show publishSeq ps (publish p.1 p.2 ⟨l1 ++ l2⟩) = _
      rw [publish_state_append, ih]
      rfl

theorem publishSeq_single (i : Nat) :
    ∀ (pubs : List ((Nat → Bool) × RemoteVideoTrackUpdate))
      (q : List RemoteVideoTrackUpdate),
      (∀ p ∈ pubs, p.1 i = true) →
      publishSeq pubs ⟨[⟨i, q⟩]⟩ = ⟨[⟨i, q ++ pubs.map Prod.snd⟩]⟩ := by
  intro pubs
  induction pubs with
  | nil => intro q _; simp [publishSeq]
  | cons p ps ih =>
      intro q ha
      have hp : p.1 i = true := ha p (List.mem_cons_self p ps)
      show publishSeq ps (publish p.1 p.2 ⟨[⟨i, q⟩]⟩) = _
      have h1 : publish p.1 p.2 ⟨[⟨i, q⟩]⟩ = ⟨[⟨i, q ++ [p.2]⟩]⟩ := by
        simp [publish, hp]
      rw [h1, ih (q ++ [p.2]) (fun x hx => ha x (List.mem_cons_of_mem p hx))]
      simp

theorem filterMap_if_eq_filter_map {α β : Type} (p : α → Bool) (f : α → β) :
    ∀ l : List α,
      (l.filterMap fun a => if p a then some (f a) else none) = (l.filter p).map f := by
  intro l
  induction l with
  | nil => rfl
  | cons x xs ih =>
      cases hx : p x <;> simp [List.filterMap_cons, List.filter_cons, hx, ih]

/-! ## Claim theorems -/

/-- C1: the claim states every delegate trampoline reconstructs the weak
Session relation without permanently consuming it, so that after any
trampoline invocation the delegate still holds exactly one raw weak
reference.  On the code this fails for the subscribe trampoline: it drops
the reconstructed Weak without restoring it, leaving zero raw weak
references, so the reclamation in the RoomDelegate Drop impl reclaims a
reference that is no longer held (undefined behaviour), while the
unsubscribe trampoline does restore the reference as claimed. -/
theorem C1_subscribe_trampoline_consumes_weak :
    (on_did_subscribe_weak roomDelegate_new_weak).raw_weak_refs = 0 ∧
    (roomDelegate_drop_weak (on_did_subscribe_weak roomDelegate_new_weak)).invalid = true ∧
    (on_did_unsubscribe_weak roomDelegate_new_weak).raw_weak_refs = 1 ∧
    (roomDelegate_drop_weak (on_did_unsubscribe_weak roomDelegate_new_weak)).invalid = false := by
  refine ⟨rfl, rfl, rfl, rfl⟩

/-- C3: the completion-bridge trampoline invoked with a null error indicator
publishes exactly one success; invoked with a non-null error string it
publishes a failure carrying that exact string, which the awaiting operation
annotates with its operation-specific context text. -/
theorem C3_done_callback_resolution (e : String) :
    done_callback none = .ok () ∧
    done_callback_sends none = [Except.ok ()] ∧
    (done_callback_sends none).length = 1 ∧
    done_callback (some e) = .error e ∧
    (done_callback_sends (some e)).length = 1 ∧
    connect_await (some (done_callback none)) = .resolved (.ok ()) ∧
    connect_await (some (done_callback (some e))) =
      .resolved (.error ⟨"error connecting to room", e⟩) ∧
    publish_video_track_await (some (done_callback (some e))) =
      .resolved (.error ⟨"error publishing video track", e⟩) := by
  refine ⟨rfl, rfl, rfl, rfl, rfl, rfl, rfl, rfl⟩

/-- C3 witness at a concrete error string. -/
theorem C3_done_callback_resolution_witness :
    done_callback none = .ok () ∧
    done_callback_sends none = [Except.ok ()] ∧
    (done_callback_sends none).length = 1 ∧
    done_callback (some "boom") = .error "boom" ∧
    (done_callback_sends (some "boom")).length = 1 ∧
    connect_await (some (done_callback none)) = .resolved (.ok ()) ∧
    connect_await (some (done_callback (some "boom"))) =
      .resolved (.error ⟨"error connecting to room", "boom"⟩) ∧
    publish_video_track_await (some (done_callback (some "boom"))) =
      .resolved (.error ⟨"error publishing video track", "boom"⟩) :=
  C3_done_callback_resolution "boom"

/-- C5: every wrapper lifetime issues exactly one release of its handle;
borrow-rule wrappers (RemoteVideoTrack, MacOSDisplay) retain exactly once at
construction while create-rule wrappers (Room, RoomDelegate, LocalVideoTrack)
retain nothing; and a batch of N wrapper lifecycles records exactly N
releases in total. -/
theorem C5_one_release_per_wrapper :
    (∀ (k : WrapperKind) (h : Nat),
        countReleases (lifetime_rc k h) h = 1 ∧
        countRetains (lifetime_rc k h) h = expected_retains (rule_of k)) ∧
    (∀ ls : List (WrapperKind × Nat), totalReleases (lifecycles_rc ls) = ls.length) := by
  constructor
  · intro k h
    cases k <;>
      simp [lifetime_rc, construction_rc, drop_rc, countReleases, countRetains,
        expected_retains, rule_of]
  · intro ls
    induction ls with
    | nil => rfl
    | cons p ps ih =>
        show totalReleases (lifetime_rc p.1 p.2 ++ lifecycles_rc ps) = ps.length + 1
        rw [totalReleases_append, totalReleases_lifetime, ih]
        omega

/-- C5 witness: one borrow-rule lifetime in isolation, and a batch of three
lifecycles recording three releases. -/
theorem C5_one_release_per_wrapper_witness :
    (countReleases (lifetime_rc .remoteVideoTrack 9) 9 = 1 ∧
      countRetains (lifetime_rc .remoteVideoTrack 9) 9
        = expected_retains (rule_of .remoteVideoTrack)) ∧
    totalReleases (lifecycles_rc [(.room, 1), (.remoteVideoTrack, 2), (.macOSDisplay, 3)])
      = 3 :=
  ⟨C5_one_release_per_wrapper.1 WrapperKind.remoteVideoTrack 9,
    C5_one_release_per_wrapper.2 [(.room, 1), (.remoteVideoTrack, 2), (.macOSDisplay, 3)]⟩

/-- C6: when the oneshot sender is dropped without publishing, the awaiting
completion path of connect, publish_video_track and display_sources panics on
unwrap (an unrecoverable bridge-contract violation) instead of resolving to an
ordinary typed operation failure. -/
theorem C6_broken_channel_is_contract_violation :
    connect_await none = .panicked ∧
    publish_video_track_await none = .panicked ∧
    display_sources_await none = .panicked ∧
    is_ordinary_failure (connect_await none) = false ∧
    is_ordinary_failure (publish_video_track_await none) = false ∧
    is_ordinary_failure (display_sources_await none) = false := by
  refine ⟨rfl, rfl, rfl, rfl, rfl, rfl⟩

/-- C8: a delegate trampoline invocation whose weak upgrade fails discards
the event: nothing is dispatched into the fan-out registry, no error is
produced, and the invocation completes (the dispatch function is total). -/
theorem C8_failed_upgrade_discards_silently (alive : Nat → Bool)
    (publisher_id track_id : String) (native_track : Nat) :
    on_did_subscribe_dispatch none alive publisher_id track_id native_track = .discarded ∧
    on_did_unsubscribe_dispatch none alive publisher_id track_id = .discarded ∧
    did_dispatch (on_did_subscribe_dispatch none alive publisher_id track_id native_track)
      = false ∧
    did_dispatch (on_did_unsubscribe_dispatch none alive publisher_id track_id) = false := by
  refine ⟨rfl, rfl, rfl, rfl⟩

/-- C8 witness at concrete inputs. -/
theorem C8_failed_upgrade_discards_silently_witness :
    on_did_subscribe_dispatch none (fun _ => true) "p1" "t1" 7 = .discarded ∧
    on_did_unsubscribe_dispatch none (fun _ => true) "p1" "t1" = .discarded ∧
    did_dispatch (on_did_subscribe_dispatch none (fun _ => true) "p1" "t1" 7) = false ∧
    did_dispatch (on_did_unsubscribe_dispatch none (fun _ => true) "p1" "t1") = false :=
  C8_failed_upgrade_discards_silently (fun _ => true) "p1" "t1" 7

/-- C9: when the native layer returns a null track collection for a
participant, remote_video_tracks returns the empty sequence, not a failure. -/
theorem C9_null_track_collection_is_empty (participant_id : String)
    (sid_of : Nat → String) :
    remote_video_tracks participant_id sid_of none = [] ∧
    (remote_video_tracks participant_id sid_of none).length = 0 := by
  refine ⟨rfl, rfl⟩

/-- C9 witness at concrete inputs. -/
theorem C9_null_track_collection_is_empty_witness :
    remote_video_tracks "participant-1" (fun h => toString h) none = [] ∧
    (remote_video_tracks "participant-1" (fun h => toString h) none).length = 0 :=
  C9_null_track_collection_is_empty "participant-1" (fun h => toString h)

/-- C10: in the subscribe trampoline the RemoteVideoTrack wrapper retains the
track handle before the weak upgrade is consulted, and on the discard path
the wrapper is dropped in the same invocation, so the handle sees exactly one
retain and one matching release and the trace is balanced. -/
theorem C10_discard_path_track_rc_balanced (native_track : Nat) :
    (∀ b : Bool, (on_did_subscribe_rc b native_track).head?
        = some (.retain native_track)) ∧
    on_did_subscribe_rc false native_track
      = [.retain native_track, .release native_track] ∧
    countRetains (on_did_subscribe_rc false native_track) native_track = 1 ∧
    countReleases (on_did_subscribe_rc false native_track) native_track = 1 ∧
    rcDelta (on_did_subscribe_rc false native_track) native_track = 0 := by
  refine ⟨fun b => by cases b <;> rfl, rfl, ?_, ?_, ?_⟩ <;>
    simp [countRetains, countReleases, rcDelta, rcStep, on_did_subscribe_rc]

/-- C10 witness at a concrete input. -/
theorem C10_discard_path_track_rc_balanced_witness :
    (∀ b : Bool, (on_did_subscribe_rc b 42).head? = some (.retain 42)) ∧
    on_did_subscribe_rc false 42 = [.retain 42, .release 42] ∧
    countRetains (on_did_subscribe_rc false 42) 42 = 1 ∧
    countReleases (on_did_subscribe_rc false 42) 42 = 1 ∧
    rcDelta (on_did_subscribe_rc false 42) 42 = 0 :=
  C10_discard_path_track_rc_balanced 42

/-- C2: after a register call followed by a sequence of publishes during all
of which the registered receiver stays open, the registered subscriber has
observed exactly the published events in publish order, and the other
subscribers are exactly what the same publish sequence produces without the
registration. -/
theorem C2_register_then_publish_order (i : Nat) (s : RoomSubscribers)
    (pubs : List ((Nat → Bool) × RemoteVideoTrackUpdate))
    (ha : ∀ p ∈ pubs, p.1 i = true) :
    (publishSeq pubs (remote_video_track_updates i s)).subscribers =
      (publishSeq pubs s).subscribers ++ [⟨i, pubs.map Prod.snd⟩] := by
  show (publishSeq pubs ⟨s.subscribers ++ [⟨i, []⟩]⟩).subscribers = _
  rw [publishSeq_state_append pubs s.subscribers [⟨i, []⟩],
    publishSeq_single i pubs [] ha]
  rfl

/-- C2 witness: one pre-existing subscriber, registration of subscriber 5,
then two publishes with every receiver open. -/
theorem C2_register_then_publish_order_witness :
    (publishSeq
        [(fun _ => true, RemoteVideoTrackUpdate.Unsubscribed "p1" "t1"),
         (fun _ => true, RemoteVideoTrackUpdate.Subscribed ⟨3, "t2", "p1"⟩)]
        (remote_video_track_updates 5 ⟨[⟨1, []⟩]⟩)).subscribers =
      (publishSeq
        [(fun _ => true, RemoteVideoTrackUpdate.Unsubscribed "p1" "t1"),
         (fun _ => true, RemoteVideoTrackUpdate.Subscribed ⟨3, "t2", "p1"⟩)]
        ⟨[⟨1, []⟩]⟩).subscribers ++
      [⟨5, [RemoteVideoTrackUpdate.Unsubscribed "p1" "t1",
            RemoteVideoTrackUpdate.Subscribed ⟨3, "t2", "p1"⟩]⟩] :=
  C2_register_then_publish_order 5 ⟨[⟨1, []⟩]⟩
    [(fun _ => true, RemoteVideoTrackUpdate.Unsubscribed "p1" "t1"),
     (fun _ => true, RemoteVideoTrackUpdate.Subscribed ⟨3, "t2", "p1"⟩)]
    (by intro p hp; fin_cases hp <;> rfl)

/-- C7: one publish removes every subscriber whose receiver is closed and
delivers the event to every remaining live subscriber, exactly as if the
dead subscribers had not been present; afterwards only live subscribers
remain. -/
theorem C7_publish_prunes_dead_senders (alive : Nat → Bool)
    (ev : RemoteVideoTrackUpdate) (s : RoomSubscribers) :
    (publish alive ev s).subscribers =
      ((s.subscribers.filter fun sub => alive sub.id).map
        fun sub => ⟨sub.id, sub.received ++ [ev]⟩) ∧
    ((publish alive ev s).subscribers.all fun sub => alive sub.id) = true := by
  have h1 : (publish alive ev s).subscribers =
      ((s.subscribers.filter fun sub => alive sub.id).map
        fun sub => ⟨sub.id, sub.received ++ [ev]⟩) :=
    filterMap_if_eq_filter_map (fun sub : Subscriber => alive sub.id)
      (fun sub : Subscriber => Subscriber.mk sub.id (sub.received ++ [ev])) s.subscribers
  refine ⟨h1, ?_⟩
  rw [h1]
  simp only [List.all_eq_true]
  intro sub hsub
  rw [List.mem_map] at hsub
  obtain ⟨a, hamem, rfl⟩ := hsub
  exact (List.mem_filter.mp hamem).2

/-- C7 witness: subscriber 2 has a closed receiver and is pruned; subscriber 1
receives the event. -/
theorem C7_publish_prunes_dead_senders_witness :
    (publish (fun n => n == 1) (.Unsubscribed "p1" "t1")
        ⟨[⟨1, []⟩, ⟨2, []⟩]⟩).subscribers =
      ((([⟨1, []⟩, ⟨2, []⟩] : List Subscriber).filter fun sub => (fun n => n == 1) sub.id).map
        fun sub => ⟨sub.id, sub.received ++ [.Unsubscribed "p1" "t1"]⟩) ∧
    ((publish (fun n => n == 1) (.Unsubscribed "p1" "t1")
        ⟨[⟨1, []⟩, ⟨2, []⟩]⟩).subscribers.all fun sub => (fun n => n == 1) sub.id) = true :=
  C7_publish_prunes_dead_senders (fun n => n == 1) (.Unsubscribed "p1" "t1")
    ⟨[⟨1, []⟩, ⟨2, []⟩]⟩

/-- C4: the display enumeration trampoline with a null sources array and a
non-null error string yields a failure carrying exactly that string (and no
display wrappers); with K handles it yields exactly K wrappers, each handle
promoted with one extra retain, and after dropping one wrapper every other
wrapper still holds at least one reference to its handle. -/
theorem C4_display_enumeration_ownership (e : String) (hs : List Nat)
    (counts0 : Nat → Int) (j k : Nat) (hj : j < hs.length) (hk : k < hs.length)
    (hjk : j ≠ k) (hpos : 0 ≤ counts0 (hs.get ⟨k, hk⟩)) :
    display_sources_callback none (some e) = some (.error e) ∧
    display_sources_callback (some hs) none = some (.ok (hs.map MacOSDisplay.mk)) ∧
    (hs.map MacOSDisplay.mk).length = hs.length ∧
    countRetains (display_sources_rc (some hs)) (hs.get ⟨k, hk⟩)
      = hs.count (hs.get ⟨k, hk⟩) ∧
    1 ≤ hs.count (hs.get ⟨k, hk⟩) ∧
    1 ≤ counts0 (hs.get ⟨k, hk⟩) +
        rcDelta (display_sources_rc (some hs)
          ++ macOSDisplay_drop_rc ⟨hs.get ⟨j, hj⟩⟩) (hs.get ⟨k, hk⟩) := by
  refine ⟨rfl, rfl, by simp, countRetains_map_retain hs _,
    List.one_le_count_iff.mpr (List.get_mem hs k hk), ?_⟩
  rw [rcDelta_append]
  simp only [display_sources_rc]
  rw [rcDelta_retains]
  by_cases heq : hs.get ⟨j, hj⟩ = hs.get ⟨k, hk⟩
  · have h2 := two_le_count_of_get_eq hs j k hj hk hjk heq
    have heq2 : hs[j] = hs[k] := heq
    have hdrop : rcDelta (macOSDisplay_drop_rc ⟨hs.get ⟨j, hj⟩⟩) (hs.get ⟨k, hk⟩)
        = -1 := by
      simp [macOSDisplay_drop_rc, rcDelta, rcStep, heq2]
    rw [hdrop]
    omega
  · have heq2 : ¬ hs[j] = hs[k] := heq
    have hdrop : rcDelta (macOSDisplay_drop_rc ⟨hs.get ⟨j, hj⟩⟩) (hs.get ⟨k, hk⟩)
        = 0 := by
      simp [macOSDisplay_drop_rc, rcDelta, rcStep, heq2]
    rw [hdrop]
    have h1 : 1 ≤ hs.count (hs.get ⟨k, hk⟩) :=
      List.one_le_count_iff.mpr (List.get_mem hs k hk)
    omega

/-- C4 witness: failure with the exact string for null sources; two handles
yield two wrappers, and dropping the wrapper of handle 10 leaves the wrapper
of handle 20 with a positive reference count. -/
theorem C4_display_enumeration_ownership_witness :
    display_sources_callback none (some "no displays") = some (.error "no displays") ∧
    display_sources_callback (some [10, 20]) none
      = some (.ok ([10, 20].map MacOSDisplay.mk)) ∧
    (([10, 20] : List Nat).map MacOSDisplay.mk).length = 2 ∧
    countRetains (display_sources_rc (some [10, 20])) 20
      = ([10, 20] : List Nat).count 20 ∧
    1 ≤ ([10, 20] : List Nat).count 20 ∧
    1 ≤ (0 : Int) +
        rcDelta (display_sources_rc (some [10, 20]) ++ macOSDisplay_drop_rc ⟨10⟩) 20 :=
  C4_display_enumeration_ownership "no displays" [10, 20] (fun _ => 0) 0 1
    (by decide) (by decide) (by decide) (by decide)

end LiveKitClient
